import Mathlib

/-!
Verification development for the receipt-issuance page
(src/src/pages/invoicing/RecibosPage.tsx).

The page keeps React state (isSearching, isSubmitting, correlative,
clientData) plus the form values, prefetches the next correlative at mount
via loadCorrelative, and on submit runs a saga: render PDF, save the PDF
artifact, insert the income (ledger) row, then reset the form and refetch
the correlative.  External calls (PDF generator, Supabase storage, income
insert, correlative fetch) are modelled by an oracle that says whether each
call succeeds or throws, and the saga is embedded as a pure function from
page state, form values and oracle to the post state, the ordered list of
external effects actually performed, and the user-visible outcome.
-/

namespace Recibos

/-- A member record as returned by fetchClientByDocument; id is optional to
model a possibly missing id (the submit guard checks clientData.id). -/
structure Client where
  id : Option String
  razon_social : String
  numero_documento : String
deriving DecidableEq, Repr

/-- The form values of ReciboPagoFormValues: dni, client name and id,
emission date, amount (monto), concept, payment method and operation
number, as defined by the defaultValues block of the page. -/
structure ReciboPagoFormValues where
  dni : String
  client_name : String
  client_id : Option String
  fecha_emision : String
  monto : Rat
  concepto : String
  metodo_pago : String
  numero_operacion : String
deriving DecidableEq, Repr

/-- Result of the JavaScript Number conversion: either a numeric value or
NaN. -/
inductive JsNum where
  | num (n : Nat)
  | nan
deriving DecidableEq, Repr

/-- The JavaScript Number coercion applied to a form string, on the domain
relevant here: after trimming whitespace, the empty string converts to 0, a
decimal digit string to its value, anything else to NaN. -/
def jsNumber (s : String) : JsNum :=
  let t := ((s.data.dropWhile Char.isWhitespace).reverse.dropWhile Char.isWhitespace).reverse
  if t = [] then .num 0
  else if t.all Char.isDigit then .num (t.foldl (fun a c => 10 * a + (c.toNat - 48)) 0)
  else .nan

/-- The receiptData object built in step 1 of onSubmit: the form values
spread together with the cached correlative and the client name and dni. -/
structure ReceiptData where
  values : ReciboPagoFormValues
  correlative : String
  client_full_name : String
  client_dni : String
deriving DecidableEq, Repr

/-- The incomeData row built in step 4 of onSubmit for the ingresos
insert. -/
structure IncomeData where
  receipt_number : String
  dni : String
  full_name : String
  amount : Rat
  account : String
  date : String
  transaction_type : String
  numeroOperacion : Option JsNum
deriving DecidableEq, Repr

/-- The external calls the submit saga can perform, in the order they are
issued: PDF generation, saving the PDF to storage keyed by the correlative
and linked to the client id, inserting the income row, and refetching the
next correlative. -/
inductive Effect where
  | renderPdf (data : ReceiptData)
  | savePdf (correlative : String) (clientId : String)
  | insertIncome (data : IncomeData)
  | fetchCorrelative
deriving DecidableEq, Repr

/-- The React state of RecibosPage together with the current form
values. -/
structure PageState where
  isSearching : Bool
  isSubmitting : Bool
  correlative : String
  clientData : Option Client
  formValues : ReciboPagoFormValues
deriving DecidableEq, Repr

/-- Oracle fixing the behaviour of the external collaborators during one
submit: for each fallible call, none means it succeeds and some msg means
it throws an error with that message; refetch is the result of the
fetchNextReceiptCorrelative call made by loadCorrelative after success
(none meaning it throws); today is the date used by the form reset. -/
structure SubmitOracle where
  renderErr : Option String
  saveErr : Option String
  incomeErr : Option String
  refetch : Option String
  today : String
deriving DecidableEq, Repr

/-- The outcome the page reports for one submit: the incomplete-data toast
from the guard, the success toast naming the issued correlative, or the
single catch-all error toast with the thrown message. -/
inductive SubmitOutcome where
  | incompleteData
  | success (correlative : String)
  | genericError (message : String)
deriving DecidableEq, Repr

/-- The description shown by the catch-all toast: the message of the error,
or a fallback when it is empty. -/
def errorDescription (msg : String) : String :=
  if msg = "" then "Ocurrió un error inesperado." else msg

/-- The defaultValues object, also used by form.reset in step 7: fixed
defaults and the current date for fecha_emision. -/
def defaultFormValues (today : String) : ReciboPagoFormValues :=
  { dni := ""
    client_name := ""
    client_id := none
    fecha_emision := today
    monto := 250
    concepto := "Elaboracion de Expediente Tecnico"
    metodo_pago := "Efectivo"
    numero_operacion := "" }

/-- The incomeData built in step 4 of onSubmit: the income row keyed by the
cached correlative, with numeroOperacion set to Number(numero_operacion)
when the payment method is BBVA Empresa and to null otherwise. -/
def buildIncomeData (values : ReciboPagoFormValues) (correlative : String)
    (c : Client) : IncomeData :=
  { receipt_number := correlative
    dni := values.dni
    full_name := c.razon_social
    amount := values.monto
    account := values.metodo_pago
    date := values.fecha_emision
    transaction_type := "Recibo de Pago"
    numeroOperacion :=
      if values.metodo_pago = "BBVA Empresa" then some (jsNumber values.numero_operacion)
      else none }

/-- The guard at the head of onSubmit: it blocks when clientData is null,
clientData.id is falsy, or the cached correlative is the empty string. -/
def submitGuardBlocked (st : PageState) : Bool :=
  match st.clientData with
  | none => true
  | some c =>
    match c.id with
    | none => true
    | some cid => cid = "" || st.correlative = ""

/-- The disabled condition of the submit button: isSubmitting, no
clientData, or no correlative. -/
def buttonDisabled (st : PageState) : Bool :=
  st.isSubmitting || st.clientData.isNone || st.correlative = ""

/-- The onSubmit handler of RecibosPage as a pure saga over the oracle.  It
follows the source step by step: the incomplete-data guard; building
receiptData from the form values and the cached correlative; calling the
PDF generator; saving the PDF keyed by the cached correlative; building and
inserting the income row; and on full success resetting the form, clearing
clientData and refetching the correlative (the refetch keeps the old
cached value when it throws, because loadCorrelative only calls
setCorrelative on success).  Any throw lands in the single catch, which
leaves the form values, clientData and correlative untouched; finally
clears isSubmitting on every post-guard path. -/
def onSubmit (st : PageState) (values : ReciboPagoFormValues)
    (o : SubmitOracle) : PageState × List Effect × SubmitOutcome :=
  match st.clientData with
  | none => (st, [], .incompleteData)
  | some c =>
    match c.id with
    | none => (st, [], .incompleteData)
    | some cid =>
      if cid = "" || st.correlative = "" then (st, [], .incompleteData)
      else
        let rd : ReceiptData :=
          { values := values
            correlative := st.correlative
            client_full_name := c.razon_social
            client_dni := c.numero_documento }
        match o.renderErr with
        | some msg =>
          ({ st with isSubmitting := false }, [.renderPdf rd],
            .genericError (errorDescription msg))
        | none =>
          match o.saveErr with
          | some msg =>
            ({ st with isSubmitting := false },
              [.renderPdf rd, .savePdf st.correlative cid],
              .genericError (errorDescription msg))
          | none =>
            let inc := buildIncomeData values st.correlative c
            match o.incomeErr with
            | some msg =>
              ({ st with isSubmitting := false },
                [.renderPdf rd, .savePdf st.correlative cid, .insertIncome inc],
                .genericError (errorDescription msg))
            | none =>
              ({ isSearching := st.isSearching
                 isSubmitting := false
                 correlative := (o.refetch).getD st.correlative
                 clientData := none
                 formValues := defaultFormValues o.today },
                [.renderPdf rd, .savePdf st.correlative cid, .insertIncome inc,
                  .fetchCorrelative],
                .success st.correlative)

/-- Modelled from the spec: ReciboPagoFormSchema lives in
src/lib/types/invoicing, which is not present under src/.  Section 3 of the
spec states the request invariants it enforces: amount is positive, the
concept is non-empty, and the operation reference is required and
non-empty when the payment method is BBVA Empresa (the enum case called
BankAccountA in the spec). -/
def validRequest (v : ReciboPagoFormValues) : Bool :=
  (0 < v.monto) && (v.concepto ≠ "") &&
    (if v.metodo_pago = "BBVA Empresa" then v.numero_operacion ≠ "" else true)

/-- The zodResolver-driven submit path: form.handleSubmit(onSubmit) runs
the schema first and only calls onSubmit when the values validate; on a
validation failure nothing runs, no external call is made and no outcome
beyond the field errors is produced (modelled as none). -/
def handleSubmit (st : PageState) (values : ReciboPagoFormValues)
    (o : SubmitOracle) : PageState × List Effect × Option SubmitOutcome :=
  if validRequest values then
    let r := onSubmit st values o
    (r.1, r.2.1, some r.2.2)
  else (st, [], none)

/-- Modelled from the spec: decimal digit list (most significant first) of
a natural number, used to render correlatives.  The fuel argument makes the
recursion structural; decDigits instantiates it with the number itself,
which always suffices. -/
def decDigitsAux : Nat → Nat → List Char
  | 0, n => [Nat.digitChar (n % 10)]
  | fuel + 1, n =>
    if n < 10 then [Nat.digitChar n]
    else decDigitsAux fuel (n / 10) ++ [Nat.digitChar (n % 10)]

/-- Decimal digits of a natural number, most significant first. -/
def decDigits (n : Nat) : List Char :=
  decDigitsAux n n

/-- The numeric value of a big-endian list of decimal digit characters. -/
def charsToNat (l : List Char) : Nat :=
  l.foldl (fun a c => 10 * a + (c.toNat - 48)) 0

/-- Modelled from the spec: the canonical rendering of a correlative, a
stable R- marker followed by the number zero-padded to five digits, as in
R-00123.  The sequencer that produces it (fetchNextReceiptCorrelative in
src/lib/api/invoicingApi) is not present under src/. -/
def formatCorrelative (n : Nat) : String :=
  String.mk
    ('R' :: '-' :: (List.replicate (5 - (decDigits n).length) '0' ++ decDigits n))

namespace Sequencer

/-- Modelled from the spec, section 4.1: the sequencer state is the single
durable counter, holding the last issued number; peek returns the value
that would be allocated next and leaves the counter untouched. -/
def peekOp (s : Nat) : String × Nat :=
  (formatCorrelative (s + 1), s)

/-- Modelled from the spec, section 4.1: allocate atomically increments
the counter and returns the newly issued correlative; with the counter at
10 it returns R-00011 and leaves the counter at 11. -/
def allocate (s : Nat) : String × Nat :=
  (formatCorrelative (s + 1), s + 1)

end Sequencer

/-- The counter state after calling peek n times. -/
def peekTimes : Nat → Nat → Nat
  | 0, s => s
  | n + 1, s => peekTimes n (Sequencer.peekOp s).2

/-- The list of correlatives returned by n successive allocate calls
starting from counter state s; by linearizability (spec section 4.1) any
N concurrent calls are serialized into such a sequence. -/
def allocList : Nat → Nat → List String
  | 0, _ => []
  | n + 1, s => (Sequencer.allocate s).1 :: allocList n (Sequencer.allocate s).2

/-- Scanning check that every income insert in an effect list is preceded
by a successful PDF save whose storage key equals the receipt number of
the inserted row; the accumulator collects the keys saved so far. -/
def ledgerOnlyAfterPut : List Effect → List String → Bool
  | [], _ => true
  | .savePdf c _ :: rest, saved => ledgerOnlyAfterPut rest (c :: saved)
  | .insertIncome d :: rest, saved =>
    saved.contains d.receipt_number && ledgerOnlyAfterPut rest saved
  | _ :: rest, saved => ledgerOnlyAfterPut rest saved

/-- A loaded client, as fetchClientByDocument would return it. -/
def clientFixture : Client :=
  { id := some "cid-1", razon_social := "JUAN PEREZ", numero_documento := "12345678" }

/-- Form values for a cash receipt, matching the defaults of the page. -/
def valuesFixture : ReciboPagoFormValues :=
  { dni := "12345678"
    client_name := "JUAN PEREZ"
    client_id := some "cid-1"
    fecha_emision := "2026-10-11"
    monto := 250
    concepto := "Elaboracion de Expediente Tecnico"
    metodo_pago := "Efectivo"
    numero_operacion := "" }

/-- Form values for a BBVA Empresa receipt with a typed operation
number. -/
def valuesBBVA : ReciboPagoFormValues :=
  { valuesFixture with metodo_pago := "BBVA Empresa", numero_operacion := "12345" }

/-- Form values for a BBVA Empresa receipt with an empty operation
reference (the invalid request of spec scenario B). -/
def valuesBBVAEmpty : ReciboPagoFormValues :=
  { valuesFixture with metodo_pago := "BBVA Empresa", numero_operacion := "" }

/-- Page state right before submit: client loaded and the correlative
R-00042 cached by the page-load loadCorrelative call. -/
def stateFixture : PageState :=
  { isSearching := false
    isSubmitting := false
    correlative := "R-00042"
    clientData := some clientFixture
    formValues := valuesFixture }

/-- Page state with no client loaded, where the submit guard fires. -/
def stateNoClient : PageState :=
  { stateFixture with clientData := none }

/-- Oracle under which every external call succeeds and the post-success
correlative refetch returns R-00043. -/
def oracleAllOk : SubmitOracle :=
  { renderErr := none, saveErr := none, incomeErr := none,
    refetch := some "R-00043", today := "2026-10-11" }

/-- Oracle under which the PDF generator throws. -/
def oracleRenderFail : SubmitOracle :=
  { oracleAllOk with renderErr := some "boom" }

/-- Oracle under which the artifact save throws. -/
def oracleSaveFail : SubmitOracle :=
  { oracleAllOk with saveErr := some "boom" }

/-- Oracle under which the income insert throws after the artifact save
succeeded. -/
def oracleLedgerFail : SubmitOracle :=
  { oracleAllOk with incomeErr := some "boom" }

theorem charsToNat_append_digit (l : List Char) (c : Char) :
    charsToNat (l ++ [c]) = 10 * charsToNat l + (c.toNat - 48) := by
  simp [charsToNat, List.foldl_append]

theorem digitChar_toNat_sub (n : Nat) (h : n < 10) :
    (Nat.digitChar n).toNat - 48 = n := by
  revert h
  revert n
  decide

theorem charsToNat_singleton (c : Char) : charsToNat [c] = c.toNat - 48 := by
  simp [charsToNat]

theorem charsToNat_decDigitsAux (fuel : Nat) :
    ∀ n, n ≤ fuel → charsToNat (decDigitsAux fuel n) = n := by
  induction fuel with
  | zero =>
    intro n h
    have hn : n = 0 := Nat.le_zero.mp h
    subst hn
    decide
  | succ fuel ih =>
    intro n h
    by_cases h10 : n < 10
    · simp only [decDigitsAux, if_pos h10]
      rw [charsToNat_singleton, digitChar_toNat_sub n h10]
    · have hdiv : n / 10 ≤ fuel := by omega
      simp only [decDigitsAux, if_neg h10]
      rw [charsToNat_append_digit, ih _ hdiv, digitChar_toNat_sub (n % 10) (by omega)]
      omega

theorem charsToNat_decDigits (n : Nat) : charsToNat (decDigits n) = n :=
  charsToNat_decDigitsAux n n le_rfl

theorem charsToNat_cons_zero (l : List Char) :
    charsToNat ('0' :: l) = charsToNat l := rfl

theorem charsToNat_replicate_zero (k : Nat) (l : List Char) :
    charsToNat (List.replicate k '0' ++ l) = charsToNat l := by
  induction k with
  | zero => simp
  | succ k ih => rw [List.replicate_succ, List.cons_append, charsToNat_cons_zero, ih]

theorem formatCorrelative_injective : Function.Injective formatCorrelative := by
  intro m n h
  have hd : ('R' :: '-' :: (List.replicate (5 - (decDigits m).length) '0' ++ decDigits m))
      = ('R' :: '-' :: (List.replicate (5 - (decDigits n).length) '0' ++ decDigits n)) :=
    congrArg String.data h
  have h2 : (List.replicate (5 - (decDigits m).length) '0' ++ decDigits m)
      = (List.replicate (5 - (decDigits n).length) '0' ++ decDigits n) := by
    injection hd with _ hd2
    injection hd2
  have h4 := congrArg charsToNat h2
  rwa [charsToNat_replicate_zero, charsToNat_replicate_zero, charsToNat_decDigits,
    charsToNat_decDigits] at h4

theorem allocList_eq_map (n : Nat) : ∀ s : Nat,
    allocList n s = (List.range n).map (fun i => formatCorrelative (s + 1 + i)) := by
  induction n with
  | zero => intro s; simp [allocList]
  | succ n ih =>
    intro s
    rw [allocList, Sequencer.allocate, ih (s + 1), List.range_succ_eq_map]
    simp only [List.map_cons, List.map_map]
    refine congrArg₂ List.cons rfl ?_
    refine List.map_congr_left ?_
    intro i _
    simp only [Function.comp]
    congr 1
    omega

theorem allocList_nodup (n s : Nat) : (allocList n s).Nodup := by
  rw [allocList_eq_map]
  refine List.Nodup.map ?_ (List.nodup_range n)
  intro a b hab
  have := formatCorrelative_injective hab
  omega

/-- Claim C1 (refuted on the code): with the correlative R-00042 cached
before submit (prefetched at page load or after an earlier reset), the
submit saga hands exactly that cached value to the Renderer as its very
first external call: the effect trace opens with the render using the
cached state value and contains no correlative fetch or allocation before
it; the only fetch happens after the whole saga succeeded. -/
theorem claim_c1_prefetched_value_reused_at_submit :
    (onSubmit stateFixture valuesFixture oracleAllOk).2.1 =
      [Effect.renderPdf
         { values := valuesFixture
           correlative := stateFixture.correlative
           client_full_name := "JUAN PEREZ"
           client_dni := "12345678" },
       Effect.savePdf stateFixture.correlative "cid-1",
       Effect.insertIncome (buildIncomeData valuesFixture stateFixture.correlative clientFixture),
       Effect.fetchCorrelative] ∧
    stateFixture.correlative = "R-00042" := by
  constructor
  · rfl
  · rfl

/-- Claim C2 (refuted on the code): after a run in which the cached
correlative R-00042 was handed to the Renderer and the render threw, the
cached correlative still holds R-00042, and a subsequent submission from
the resulting state persists the artifact under the very same key
R-00042 instead of a strictly later value. -/
theorem claim_c2_spent_correlative_reused_after_failure :
    Effect.renderPdf
        { values := valuesFixture
          correlative := "R-00042"
          client_full_name := "JUAN PEREZ"
          client_dni := "12345678" }
      ∈ (onSubmit stateFixture valuesFixture oracleRenderFail).2.1 ∧
    (onSubmit stateFixture valuesFixture oracleRenderFail).1.correlative = "R-00042" ∧
    Effect.savePdf "R-00042" "cid-1"
      ∈ (onSubmit (onSubmit stateFixture valuesFixture oracleRenderFail).1
          valuesFixture oracleAllOk).2.1 := by
  refine ⟨?_, rfl, ?_⟩
  · exact List.Mem.head _
  · exact List.Mem.tail _ (List.Mem.head _)

/-- Claim C3: the income insert is attempted only when the artifact save
has already returned success in the same run: every insert effect in the
trace is preceded by a save whose storage key equals the receipt number of
the inserted row, and when the save throws no insert effect occurs at
all. -/
theorem claim_c3_ledger_only_after_artifact_put
    (st : PageState) (v : ReciboPagoFormValues) (o : SubmitOracle) :
    ledgerOnlyAfterPut (onSubmit st v o).2.1 [] = true ∧
    (o.saveErr ≠ none → ∀ d, Effect.insertIncome d ∉ (onSubmit st v o).2.1) := by
  obtain ⟨isS, isSub, corr, cd, fv⟩ := st
  obtain ⟨rE, sE, iE, rf, td⟩ := o
  cases cd with
  | none => simp [onSubmit, ledgerOnlyAfterPut]
  | some c =>
    obtain ⟨cid, rs, nd⟩ := c
    cases cid with
    | none => simp [onSubmit, ledgerOnlyAfterPut]
    | some i =>
      simp only [onSubmit]
      split
      · simp [ledgerOnlyAfterPut]
      · cases rE <;> cases sE <;> cases iE <;>
          simp [ledgerOnlyAfterPut, buildIncomeData]

/-- Witness for claim C3 at concrete inputs: the full-success trace passes
the scan, and with a throwing artifact save the income row is never
inserted. -/
theorem claim_c3_witness :
    ledgerOnlyAfterPut (onSubmit stateFixture valuesFixture oracleAllOk).2.1 [] = true ∧
    Effect.insertIncome (buildIncomeData valuesFixture "R-00042" clientFixture)
      ∉ (onSubmit stateFixture valuesFixture oracleSaveFail).2.1 :=
  ⟨(claim_c3_ledger_only_after_artifact_put stateFixture valuesFixture oracleAllOk).1,
   (claim_c3_ledger_only_after_artifact_put stateFixture valuesFixture oracleSaveFail).2
     (by decide) (buildIncomeData valuesFixture "R-00042" clientFixture)⟩

/-- Claim C4 (refuted on the code): a ledger-write failure after a
successful artifact save surfaces as the single catch-all error carrying
only the thrown message, byte-for-byte identical to the outcome of a
render failure; no distinct kind, no spent correlative and no artifact
handle are reported (the code even discards the save return value). -/
theorem claim_c4_ledger_failure_reported_generically :
    (onSubmit stateFixture valuesFixture oracleLedgerFail).2.2 =
      SubmitOutcome.genericError "boom" ∧
    Effect.savePdf "R-00042" "cid-1"
      ∈ (onSubmit stateFixture valuesFixture oracleLedgerFail).2.1 ∧
    (onSubmit stateFixture valuesFixture oracleLedgerFail).2.2 =
      (onSubmit stateFixture valuesFixture oracleRenderFail).2.2 := by
  refine ⟨rfl, ?_, rfl⟩
  exact List.Mem.tail _ (List.Mem.head _)

/-- Claim C5: a request that fails the form schema never reaches onSubmit,
so the page state is unchanged and no external call of any kind is made;
in particular the BBVA Empresa payment method with an empty operation
reference fails validation. -/
theorem claim_c5_validation_failure_aborts_before_any_effect
    (st : PageState) (v : ReciboPagoFormValues) (o : SubmitOracle) :
    (validRequest v = false → handleSubmit st v o = (st, [], none)) ∧
    (v.metodo_pago = "BBVA Empresa" → v.numero_operacion = "" → validRequest v = false) := by
  constructor
  · intro h
    simp [handleSubmit, h]
  · intro h1 h2
    simp [validRequest, h1, h2]

/-- Witness for claim C5: submitting the BBVA Empresa request with an
empty operation reference leaves the state untouched and performs no
external call. -/
theorem claim_c5_witness :
    handleSubmit stateFixture valuesBBVAEmpty oracleAllOk = (stateFixture, [], none) :=
  (claim_c5_validation_failure_aborts_before_any_effect stateFixture valuesBBVAEmpty
    oracleAllOk).1
    ((claim_c5_validation_failure_aborts_before_any_effect stateFixture valuesBBVAEmpty
      oracleAllOk).2 rfl rfl)

/-- Claim C6: peek has no side effect on the counter: after any number of
peek calls the counter state is unchanged, and one allocate then returns
exactly the value the last peek reported. -/
theorem claim_c6_peek_has_no_side_effect (s n : Nat) :
    peekTimes n s = s ∧
    (Sequencer.allocate (peekTimes n s)).1 = (Sequencer.peekOp s).1 := by
  have h : peekTimes n s = s := by
    induction n with
    | zero => rfl
    | succ n ih => simpa [peekTimes, Sequencer.peekOp] using ih
  exact ⟨h, by rw [h]; rfl⟩

/-- Claim C7: the correlatives returned by any number of allocate calls
are pairwise distinct, and two callers starting from counter state 10
receive R-00011 and R-00012. -/
theorem claim_c7_concurrent_allocations_distinct (n s : Nat) :
    (allocList n s).Nodup ∧ allocList 2 10 = ["R-00011", "R-00012"] :=
  ⟨allocList_nodup n s, by decide⟩

/-- Claim C8: when a post-guard step throws, the catch path leaves the
form values, the cached client data and the cached correlative exactly as
they were before the submit; the correlative refetch (and with it the
reset path) runs only when the saga succeeded. -/
theorem claim_c8_error_path_leaves_state_unchanged
    (st : PageState) (v : ReciboPagoFormValues) (o : SubmitOracle) :
    (∀ m, (onSubmit st v o).2.2 = SubmitOutcome.genericError m →
      (onSubmit st v o).1.formValues = st.formValues ∧
      (onSubmit st v o).1.clientData = st.clientData ∧
      (onSubmit st v o).1.correlative = st.correlative) ∧
    (Effect.fetchCorrelative ∈ (onSubmit st v o).2.1 →
      (onSubmit st v o).2.2 = SubmitOutcome.success st.correlative) := by
  obtain ⟨isS, isSub, corr, cd, fv⟩ := st
  obtain ⟨rE, sE, iE, rf, td⟩ := o
  cases cd with
  | none => simp [onSubmit]
  | some c =>
    obtain ⟨cid, rs, nd⟩ := c
    cases cid with
    | none => simp [onSubmit]
    | some i =>
      simp only [onSubmit]
      split
      · simp
      · cases rE <;> cases sE <;> cases iE <;> simp

/-- Witness for claim C8 at concrete inputs: a render failure keeps the
form values, the client data and the correlative of the pre-submit state,
and on the all-success oracle the refetch does occur together with the
success outcome. -/
theorem claim_c8_witness :
    ((onSubmit stateFixture valuesFixture oracleRenderFail).1.formValues =
        stateFixture.formValues ∧
      (onSubmit stateFixture valuesFixture oracleRenderFail).1.clientData =
        stateFixture.clientData ∧
      (onSubmit stateFixture valuesFixture oracleRenderFail).1.correlative =
        stateFixture.correlative) ∧
    (onSubmit stateFixture valuesFixture oracleAllOk).2.2 =
      SubmitOutcome.success stateFixture.correlative :=
  ⟨(claim_c8_error_path_leaves_state_unchanged stateFixture valuesFixture oracleRenderFail).1
      "boom" (by rfl),
   (claim_c8_error_path_leaves_state_unchanged stateFixture valuesFixture oracleAllOk).2
      (List.Mem.tail _ (List.Mem.tail _ (List.Mem.tail _ (List.Mem.head _))))⟩

/-- Claim C9: in any income row the saga inserts, the numeroOperacion
field is the JavaScript Number conversion of the typed operation number
when the payment method is BBVA Empresa and null for every other method;
and the Number conversion of the empty string is 0, not a rejection. -/
theorem claim_c9_operation_number_mapping
    (st : PageState) (v : ReciboPagoFormValues) (o : SubmitOracle) (d : IncomeData) :
    (Effect.insertIncome d ∈ (onSubmit st v o).2.1 →
      d.numeroOperacion =
        (if v.metodo_pago = "BBVA Empresa" then some (jsNumber v.numero_operacion)
         else none)) ∧
    jsNumber "" = JsNum.num 0 := by
  refine ⟨?_, by rfl⟩
  obtain ⟨isS, isSub, corr, cd, fv⟩ := st
  obtain ⟨rE, sE, iE, rf, td⟩ := o
  cases cd with
  | none => simp [onSubmit]
  | some c =>
    obtain ⟨cid, rs, nd⟩ := c
    cases cid with
    | none => simp [onSubmit]
    | some i =>
      simp only [onSubmit]
      split
      · simp
      · cases rE <;> cases sE <;> cases iE <;> intro hmem <;> simp at hmem <;>
          (try subst hmem) <;> (try rfl)

/-- Witness for claim C9: on the all-success BBVA Empresa run the
inserted row carries the Number conversion of the typed operation number,
and the conversion of the empty string evaluates to 0. -/
theorem claim_c9_witness :
    (buildIncomeData valuesBBVA "R-00042" clientFixture).numeroOperacion =
      (if valuesBBVA.metodo_pago = "BBVA Empresa"
       then some (jsNumber valuesBBVA.numero_operacion) else none) ∧
    jsNumber "" = JsNum.num 0 :=
  ⟨(claim_c9_operation_number_mapping stateFixture valuesBBVA oracleAllOk
      (buildIncomeData valuesBBVA "R-00042" clientFixture)).1
      (List.Mem.tail _ (List.Mem.tail _ (List.Mem.head _))),
   (claim_c9_operation_number_mapping stateFixture valuesBBVA oracleAllOk
      (buildIncomeData valuesBBVA "R-00042" clientFixture)).2⟩

/-- Claim C10: when the client data, its id or the cached correlative is
missing, onSubmit stops at the guard: the state is returned unchanged, no
external effect is performed and the incomplete-data outcome is reported;
and the submit button is disabled whenever a submit is in flight, the
client data is absent or the correlative is absent. -/
theorem claim_c10_guard_blocks_all_external_writes
    (st : PageState) (v : ReciboPagoFormValues) (o : SubmitOracle) :
    (submitGuardBlocked st = true →
      onSubmit st v o = (st, [], SubmitOutcome.incompleteData)) ∧
    (st.isSubmitting = true ∨ st.clientData = none ∨ st.correlative = "" →
      buttonDisabled st = true) := by
  constructor
  · intro hg
    obtain ⟨isS, isSub, corr, cd, fv⟩ := st
    cases cd with
    | none => simp [onSubmit]
    | some c =>
      obtain ⟨cid, rs, nd⟩ := c
      cases cid with
      | none => simp [onSubmit]
      | some i =>
        simp only [submitGuardBlocked] at hg
        simp only [onSubmit]
        split
        · rfl
        · simp_all
  · intro hd
    rcases hd with h | h | h <;> simp [buttonDisabled, h]

/-- Witness for claim C10: with no client loaded the submit returns early
with the incomplete-data outcome and no effect, and the button is
disabled. -/
theorem claim_c10_witness :
    onSubmit stateNoClient valuesFixture oracleAllOk =
      (stateNoClient, [], SubmitOutcome.incompleteData) ∧
    buttonDisabled stateNoClient = true :=
  ⟨(claim_c10_guard_blocks_all_external_writes stateNoClient valuesFixture oracleAllOk).1
      (by decide),
   (claim_c10_guard_blocks_all_external_writes stateNoClient valuesFixture oracleAllOk).2
      (Or.inr (Or.inl rfl))⟩

end Recibos
